import Mathlib

/-!
Verification of the bioinformatics_wrappers service layer.

Shallow embedding of the Python service code in
`src/tools/blast/api/blast_service.py`, `src/tools/blast/app.py`,
`src/tools/spider/api/spider_service.py` and `src/tools/spider/app.py`.

Python strings are represented as `List Char` (`PyStr`); file I/O and
subprocess execution are represented by explicit outcome parameters, and
the observable effects that the claims speak about (working directory,
temporary-file creation and removal) are returned as explicit trace
fields.
-/

/-- Python `str` values are modelled as lists of characters. -/
abbrev PyStr := List Char

/-- The characters stripped by Python `str.strip()` (ASCII whitespace;
the Unicode extras never occur in the inputs considered here). -/
def isPyWs (c : Char) : Bool :=
  c = ' ' || c = '\t' || c = '\n' || c = '\x0d' || c = '\x0b' || c = '\x0c'

/-- Python `str.strip()`: drop leading and trailing whitespace. -/
def pyStrip (s : PyStr) : PyStr :=
  ((s.dropWhile isPyWs).reverse.dropWhile isPyWs).reverse

/-- Per-character uppercasing as done by Python `str.upper()` on ASCII. -/
def pyUpperChar (c : Char) : Char :=
  if 'a' ≤ c ∧ c ≤ 'z' then Char.ofNat (c.toNat - 32) else c

/-- Per-character lowercasing as done by Python `str.lower()` on ASCII. -/
def pyLowerChar (c : Char) : Char :=
  if 'A' ≤ c ∧ c ≤ 'Z' then Char.ofNat (c.toNat + 32) else c

/-- Python `str.lower()` on ASCII strings. -/
def pyLower (s : PyStr) : PyStr := s.map pyLowerChar

/-- Split a string on every occurrence of the (single-character)
separator, keeping empty pieces: the behaviour of Python
`str.split(sep)` for a one-character `sep`. -/
def pySplitOn (sep : Char) : PyStr → List PyStr
  | [] => [[]]
  | c :: cs =>
    let rest := pySplitOn sep cs
    if c = sep then [] :: rest
    else
      match rest with
      | [] => [[c]]
      | p :: ps => (c :: p) :: ps

/-- The lines delivered by Python `f.readlines()`, with the trailing
`'\n'` terminators removed (the validator strips every line anyway, and
line-membership checks never involve the terminator).  An empty file
yields `[]`; a trailing newline does not create a final empty line. -/
def pyReadLines (s : PyStr) : List PyStr :=
  if s = [] then []
  else
    let parts := pySplitOn '\n' s
    if parts.getLast? = some [] then parts.dropLast else parts

/-- The 20 standard amino-acid letters checked by the validator
(`"ACDEFGHIKLMNPQRSTVWY"` in the source). -/
def isAminoAcid (c : Char) : Bool :=
  c = 'A' || c = 'C' || c = 'D' || c = 'E' || c = 'F' || c = 'G' ||
  c = 'H' || c = 'I' || c = 'K' || c = 'L' || c = 'M' || c = 'N' ||
  c = 'P' || c = 'Q' || c = 'R' || c = 'S' || c = 'T' || c = 'V' ||
  c = 'W' || c = 'Y'

/-- Python `line.startswith(">")`. -/
def startsWithGt (l : PyStr) : Bool :=
  match l with
  | '>' :: _ => true
  | _ => false

/-- The per-line check in the validator loop of
`validate_fasta_protein_file` / `validate_fasta_file`: the line is
stripped; a stripped line starting with `'>'` must have length `> 1`;
any other stripped line must be empty or consist of amino-acid letters
after uppercasing. -/
def fastaLineOk (line : PyStr) : Bool :=
  let l := pyStrip line
  if startsWithGt l then decide (1 < l.length)
  else l.isEmpty || l.all (fun c => isAminoAcid (pyUpperChar c))

/-- The validator `BLASTpService.validate_fasta_protein_file` /
`SpiderService.validate_fasta_file` on the list of lines read from the
file: fail on an empty file, fail unless the stripped first line starts
with `'>'`, then run the per-line loop. -/
def validateFastaLines (lines : List PyStr) : Bool :=
  match lines with
  | [] => false
  | l0 :: _ => startsWithGt (pyStrip l0) && lines.all fastaLineOk

/-- The validator on file contents: `none` stands for an I/O or decoding
failure when opening/reading the file, on which the `except` clause
returns `False`. -/
def validateFastaContent (content : Option PyStr) : Bool :=
  match content with
  | none => false
  | some s => validateFastaLines (pyReadLines s)

/-- The validity condition exactly as the specification's claim words
it, on the literal lines of the content: the content is non-empty, the
first line starts with `'>'`, every header line (a line starting with
`'>'`) has at least one character after the marker, and every
non-header line consists solely of the 20 standard amino-acid letters
(case-insensitive).  No whitespace-stripping is mentioned by the
claim, so none is applied here. -/
def c1SpecValid (content : PyStr) : Bool :=
  decide (content ≠ []) &&
  (match pyReadLines content with
   | [] => false
   | l0 :: _ => startsWithGt l0) &&
  (pyReadLines content).all (fun l =>
    if startsWithGt l then decide (1 < l.length)
    else l.all (fun c => isAminoAcid (pyUpperChar c)))

/-- The claim's validity condition amended to match the code: every
line is stripped of leading/trailing whitespace before the header and
sequence checks (so the first-line check, the header-length check and
the amino-acid check all act on the stripped line). -/
def c1AmendedValid (content : PyStr) : Bool :=
  decide (content ≠ []) &&
  (match pyReadLines content with
   | [] => false
   | l0 :: _ => startsWithGt (pyStrip l0)) &&
  (pyReadLines content).all (fun l =>
    let t := pyStrip l
    if startsWithGt t then decide (1 < t.length)
    else t.all (fun c => isAminoAcid (pyUpperChar c)))


/-- ASCII decimal digit. -/
def isDig (c : Char) : Bool := '0' ≤ c && c ≤ '9'

/-- Exponent suffix of a Python float literal: empty, or `e`/`E`,
an optional sign, and a non-empty digit run. -/
def floatExpOk (l : PyStr) : Bool :=
  match l with
  | [] => true
  | c :: rest =>
    (c = 'e' || c = 'E') &&
    (let rest2 := match rest with
                  | '+' :: r => r
                  | '-' :: r => r
                  | r => r
     !rest2.isEmpty && rest2.all isDig)

/-- Body of a Python float literal after the optional sign:
`digits [ . digits ] [exp]`, `. digits [exp]`, or (case-insensitively)
`inf`, `infinity` or `nan`.  Underscored literals are not modelled (no
claim depends on them). -/
def floatBodyOk (l : PyStr) : Bool :=
  let intPart := l.takeWhile isDig
  let rest := l.dropWhile isDig
  if intPart.isEmpty then
    match rest with
    | '.' :: r2 =>
      let frac := r2.takeWhile isDig
      !frac.isEmpty && floatExpOk (r2.dropWhile isDig)
    | _ => pyLower l = "inf".toList || pyLower l = "infinity".toList ||
           pyLower l = "nan".toList
  else
    match rest with
    | '.' :: r2 => floatExpOk (r2.dropWhile isDig)
    | r => floatExpOk r

/-- Acceptance of Python `float(s)`: strip whitespace, optional sign,
then a float body. -/
def floatLitOk (s : PyStr) : Bool :=
  match pyStrip s with
  | '+' :: body => floatBodyOk body
  | '-' :: body => floatBodyOk body
  | body => !body.isEmpty && floatBodyOk body

/-- A successfully parsed Python float.  The claims under verification
never inspect the numeric value of a parsed float, so the value is
represented by the accepted literal itself. -/
structure PyFloat where
  lit : PyStr
deriving DecidableEq, Repr

/-- Python `float(s)`: `some` on a well-formed literal, `none` models
the `ValueError` it raises otherwise. -/
def pyFloat? (s : PyStr) : Option PyFloat :=
  if floatLitOk s then some ⟨s⟩ else none

/-- Digits-to-value accumulator for `int()`. -/
def digitsVal (l : PyStr) : Nat :=
  l.foldl (fun acc c => 10 * acc + (c.toNat - '0'.toNat)) 0

/-- Python `int(s)`: strip whitespace, optional sign, non-empty digit
run (underscored literals not modelled); `none` models `ValueError`. -/
def pyInt? (s : PyStr) : Option Int :=
  match pyStrip s with
  | '+' :: ds => if !ds.isEmpty && ds.all isDig then some (digitsVal ds) else none
  | '-' :: ds => if !ds.isEmpty && ds.all isDig then some (-(digitsVal ds : Int)) else none
  | ds => if !ds.isEmpty && ds.all isDig then some (digitsVal ds) else none


/-- One structured hit as built by `BLASTpService._parse_blastp_json`
(`models.BLASTpHit`). -/
structure BLASTpHit where
  rank : Nat
  query_id : PyStr
  subject_id : PyStr
  percent_identity : PyFloat
  alignment_length : Int
  evalue : PyFloat
  bitscore : PyFloat
  organism : Option PyStr
deriving DecidableEq, Repr

/-- The aggregate structured result (`models.BLASTpJSONResult`). -/
structure BLASTpJSONResult where
  hits : List BLASTpHit
  total_hits : Nat
  query_sequence : PyStr
deriving DecidableEq, Repr

/-- One iteration of the `_parse_blastp_json` loop at 0-based line
index `idx`: skip a blank line, split the stripped line on tabs,
require at least 6 fields, parse the numeric fields (a `ValueError`
skips the line), and take the 7th field as organism when present.
`none` means the line contributes no hit. -/
def mkHit (idx : Nat) (line : PyStr) : Option BLASTpHit :=
  if (pyStrip line).isEmpty then none
  else
    match pySplitOn '\t' (pyStrip line) with
    | q :: s :: p :: a :: e :: b :: rest =>
      match pyFloat? p, pyInt? a, pyFloat? e, pyFloat? b with
      | some pf, some av, some ef, some bf =>
        some ⟨idx + 1, q, s, pf, av, ef, bf, rest.head?⟩
      | _, _, _, _ => none
    | _ => none

/-- The `_parse_blastp_json` loop over the enumerated output lines. -/
def parseHitsGo (i : Nat) : List PyStr → List BLASTpHit
  | [] => []
  | l :: ls =>
    match mkHit i l with
    | some h => h :: parseHitsGo (i + 1) ls
    | none => parseHitsGo (i + 1) ls

/-- The parser `BLASTpService._parse_blastp_json` on the output file's content:
strip the whole text, split on newlines, run the loop, and report
`total_hits = len(hits)` together with the echoed query sequence.
The function is total: every malformed line is skipped, matching the
per-line `except (ValueError, IndexError)` in the source. -/
def parseBlastpJson (content : PyStr) (qseq : PyStr) : BLASTpJSONResult :=
  let lines := pySplitOn '\n' (pyStrip content)
  let hits := parseHitsGo 0 lines
  ⟨hits, hits.length, qseq⟩

/-- A well-formed output line in the sense of the claims: after
stripping, it has at least 6 tab-separated fields and its numeric
fields (3rd, 5th, 6th as floats, 4th as int) parse. -/
def wellFormedHitLine (l : PyStr) : Bool :=
  let parts := pySplitOn '\t' (pyStrip l)
  decide (6 ≤ parts.length) &&
  (pyFloat? (parts.getD 2 [])).isSome && (pyInt? (parts.getD 3 [])).isSome &&
  (pyFloat? (parts.getD 4 [])).isSome && (pyFloat? (parts.getD 5 [])).isSome


theorem pySplitOn_nil (sep : Char) : pySplitOn sep [] = [[]] := rfl

theorem pySplitOn_ne_nil (sep : Char) (l : PyStr) : pySplitOn sep l ≠ [] := by
  induction l with
  | nil => simp [pySplitOn]
  | cons c cs ih =>
    unfold pySplitOn
    by_cases hc : c = sep
    · simp [hc]
    · simp only [hc, if_false]
      cases h : pySplitOn sep cs with
      | nil => simp
      | cons p ps => simp

theorem mkHit_isSome_eq (i : Nat) (l : PyStr) :
    (mkHit i l).isSome = wellFormedHitLine l := by
  unfold mkHit wellFormedHitLine
  by_cases hs : (pyStrip l).isEmpty
  · have hnil : pyStrip l = [] := by simpa using hs
    simp [hs, hnil, pySplitOn]
  · simp only [hs, Bool.false_eq_true, if_false]
    rcases hp : pySplitOn '\t' (pyStrip l) with _ | ⟨q, _ | ⟨s, _ | ⟨p, _ | ⟨a, _ | ⟨e, _ | ⟨b, rest⟩⟩⟩⟩⟩⟩ <;>
      simp [hp]
    cases hpf : pyFloat? p <;> cases hia : pyInt? a <;>
      cases hef : pyFloat? e <;> cases hbf : pyFloat? b <;>
      simp [hpf, hia, hef, hbf]

theorem parseHitsGo_length_countP (ls : List PyStr) :
    ∀ i, (parseHitsGo i ls).length = ls.countP (fun l => wellFormedHitLine l) := by
  induction ls with
  | nil => intro i; simp [parseHitsGo]
  | cons l ls ih =>
    intro i
    unfold parseHitsGo
    cases hm : mkHit i l with
    | none =>
      have hwf : wellFormedHitLine l = false := by
        rw [← mkHit_isSome_eq i l, hm]; rfl
      simp [List.countP_cons, hwf, ih]
    | some h =>
      have hwf : wellFormedHitLine l = true := by
        rw [← mkHit_isSome_eq i l, hm]; rfl
      simp [List.countP_cons, hwf, ih]

theorem mkHit_of_wf (i : Nat) (l : PyStr) (hwf : wellFormedHitLine l = true) :
    ∃ h : BLASTpHit, mkHit i l = some h ∧ h.rank = i + 1 ∧
      h.organism.isSome = decide (7 ≤ (pySplitOn '\t' (pyStrip l)).length) := by
  rcases hp : pySplitOn '\t' (pyStrip l) with _ | ⟨q, _ | ⟨s, _ | ⟨p, _ | ⟨a, _ | ⟨e, _ | ⟨b, rest⟩⟩⟩⟩⟩⟩ <;>
    rw [wellFormedHitLine] at hwf <;> rw [hp] at hwf <;>
    simp only [Bool.and_eq_true, decide_eq_true_eq, List.getD, List.get?, Option.getD_some,
      List.length_cons, List.length_nil] at hwf <;>
    try (exfalso; omega)
  obtain ⟨⟨⟨⟨_, hpf⟩, hia⟩, hef⟩, hbf⟩ := hwf
  have hne : (pyStrip l).isEmpty = false := by
    cases hq : pyStrip l with
    | nil => rw [hq, pySplitOn_nil] at hp; simp at hp
    | cons c cs => rfl
  obtain ⟨pf, hpf'⟩ := Option.isSome_iff_exists.mp hpf
  obtain ⟨av, hia'⟩ := Option.isSome_iff_exists.mp hia
  obtain ⟨ef, hef'⟩ := Option.isSome_iff_exists.mp hef
  obtain ⟨bf, hbf'⟩ := Option.isSome_iff_exists.mp hbf
  refine ⟨⟨i + 1, q, s, pf, av, ef, bf, rest.head?⟩, ?_, rfl, ?_⟩
  · unfold mkHit
    rw [hp, hne]
    simp [hpf', hia', hef', hbf']
  · show rest.head?.isSome = decide (7 ≤ (q :: s :: p :: a :: e :: b :: rest).length)
    cases rest <;> simp
theorem parseHitsGo_spec (ls : List PyStr) :
    ∀ i, (∀ l ∈ ls, wellFormedHitLine l = true) →
    (parseHitsGo i ls).length = ls.length ∧
    ∀ j hit line, (parseHitsGo i ls)[j]? = some hit → ls[j]? = some line →
      hit.rank = i + j + 1 ∧
      hit.organism.isSome = decide (7 ≤ (pySplitOn '\t' (pyStrip line)).length) := by
  induction ls with
  | nil =>
    intro i _
    refine ⟨rfl, ?_⟩
    intro j hit line h1 _
    simp [parseHitsGo] at h1
  | cons l ls ih =>
    intro i hall
    obtain ⟨h, hm, hrank, horg⟩ := mkHit_of_wf i l (hall l (List.mem_cons_self l ls))
    have hrest := ih (i + 1) (fun x hx => hall x (List.mem_cons_of_mem _ hx))
    have heq : parseHitsGo i (l :: ls) = h :: parseHitsGo (i + 1) ls := by
      simp only [parseHitsGo, hm]
    rw [heq]
    refine ⟨by simp [hrest.1], ?_⟩
    intro j hit line h1 h2
    cases j with
    | zero =>
      simp only [List.getElem?_cons_zero, Option.some.injEq] at h1 h2
      subst h1; subst h2
      exact ⟨by omega, horg⟩
    | succ j =>
      simp only [List.getElem?_cons_succ] at h1 h2
      obtain ⟨hr, ho⟩ := hrest.2 j hit line h1 h2
      exact ⟨by omega, ho⟩

/-- Claim C5: for tabular output consisting of well-formed lines (≥ 6
tab-separated fields, parseable numeric fields), `_parse_blastp_json`
yields exactly one `BLASTpHit` per line, `total_hits` equal to the line
count, each hit's `rank` equal to its 1-based line position, and the
`organism` field present exactly when a 7th column exists. -/
theorem c5_structured_parser_wellformed (content qseq : PyStr)
    (hwf : ∀ l ∈ pySplitOn '\n' (pyStrip content), wellFormedHitLine l = true) :
    (parseBlastpJson content qseq).hits.length = (pySplitOn '\n' (pyStrip content)).length ∧
    (parseBlastpJson content qseq).total_hits = (pySplitOn '\n' (pyStrip content)).length ∧
    ∀ j hit line, (parseBlastpJson content qseq).hits[j]? = some hit →
      (pySplitOn '\n' (pyStrip content))[j]? = some line →
      hit.rank = j + 1 ∧
      hit.organism.isSome = decide (7 ≤ (pySplitOn '\t' (pyStrip line)).length) := by
  have h := parseHitsGo_spec (pySplitOn '\n' (pyStrip content)) 0 hwf
  refine ⟨h.1, h.1, ?_⟩
  intro j hit line h1 h2
  obtain ⟨hr, ho⟩ := h.2 j hit line h1 h2
  exact ⟨by omega, ho⟩

/-- Witness for C5 on a concrete two-line output, the first line with
a 7th (organism) column and the second without. -/
theorem c5_structured_parser_wellformed_witness :
    (∀ l ∈ pySplitOn '\n'
        (pyStrip "q\ts\t99.5\t100\t1e-50\t200.1\tHomo sapiens\nq\ts2\t80\t90\t1e-20\t150".toList),
      wellFormedHitLine l = true) ∧
    (parseBlastpJson
        "q\ts\t99.5\t100\t1e-50\t200.1\tHomo sapiens\nq\ts2\t80\t90\t1e-20\t150".toList
        "MKT".toList).total_hits = 2 := by
  refine ⟨by decide, ?_⟩
  have h := c5_structured_parser_wellformed
    "q\ts\t99.5\t100\t1e-50\t200.1\tHomo sapiens\nq\ts2\t80\t90\t1e-20\t150".toList
    "MKT".toList (by decide)
  exact h.2.1.trans (by decide)

/-- Claim C6: with one malformed line (wrong field count or an unparseable
numeric field) among otherwise well-formed lines, `_parse_blastp_json`
yields exactly one hit fewer than the number of lines, dropping only
the malformed line; the per-line `except` makes the parser total, so
no exception escapes. -/
theorem c6_malformed_line_dropped (content qseq : PyStr) (pre post : List PyStr) (bad : PyStr)
    (hsplit : pySplitOn '\n' (pyStrip content) = pre ++ bad :: post)
    (hpre : ∀ l ∈ pre, wellFormedHitLine l = true)
    (hpost : ∀ l ∈ post, wellFormedHitLine l = true)
    (hbad : wellFormedHitLine bad = false) :
    (parseBlastpJson content qseq).hits.length =
      (pySplitOn '\n' (pyStrip content)).length - 1 ∧
    (parseBlastpJson content qseq).total_hits =
      (pySplitOn '\n' (pyStrip content)).length - 1 := by
  have h1 : pre.countP (fun l => wellFormedHitLine l) = pre.length :=
    List.countP_eq_length.mpr (by intro a ha; simpa using hpre a ha)
  have h2 : post.countP (fun l => wellFormedHitLine l) = post.length :=
    List.countP_eq_length.mpr (by intro a ha; simpa using hpost a ha)
  have hcp : (pySplitOn '\n' (pyStrip content)).countP (fun l => wellFormedHitLine l) =
      pre.length + post.length := by
    rw [hsplit, List.countP_append, List.countP_cons]
    simp [h1, h2, hbad]
  have hlen2 : (pySplitOn '\n' (pyStrip content)).length = pre.length + post.length + 1 := by
    rw [hsplit]; simp; omega
  have hmain : (parseHitsGo 0 (pySplitOn '\n' (pyStrip content))).length =
      (pySplitOn '\n' (pyStrip content)).length - 1 := by
    rw [parseHitsGo_length_countP, hcp, hlen2]; omega
  exact ⟨hmain, hmain⟩

/-- Witness for C6 on a concrete three-line output whose middle line is
malformed. -/
theorem c6_malformed_line_dropped_witness :
    (parseBlastpJson "q\ts\t99.5\t100\t1e-50\t200.1\nbadline\nq\ts2\t80\t90\t1e-20\t150".toList
      [] ).total_hits = 2 := by
  have h := c6_malformed_line_dropped
    "q\ts\t99.5\t100\t1e-50\t200.1\nbadline\nq\ts2\t80\t90\t1e-20\t150".toList []
    ["q\ts\t99.5\t100\t1e-50\t200.1".toList] ["q\ts2\t80\t90\t1e-20\t150".toList]
    "badline".toList (by decide) (by decide) (by decide) (by decide)
  exact h.2.trans (by decide)

theorem pySplitOn_eq_singleton_nil (sep : Char) (s : PyStr)
    (h : pySplitOn sep s = [[]]) : s = [] := by
  cases s with
  | nil => rfl
  | cons c cs =>
    exfalso
    unfold pySplitOn at h
    by_cases hc : c = sep
    · simp only [hc, if_true] at h
      obtain ⟨-, h2⟩ := List.cons.injEq .. ▸ h
      exact pySplitOn_ne_nil sep cs (by simpa using h2)
    · simp only [hc, if_false] at h
      cases hr : pySplitOn sep cs with
      | nil => exact pySplitOn_ne_nil sep cs hr
      | cons p ps => rw [hr] at h; simp at h

theorem pyReadLines_eq_nil_iff (s : PyStr) : pyReadLines s = [] ↔ s = [] := by
  constructor
  · intro h
    by_contra hs
    unfold pyReadLines at h
    simp only [hs, if_false] at h
    split at h
    · next hlast =>
      have hne := pySplitOn_ne_nil '\n' s
      rcases hp : pySplitOn '\n' s with _ | ⟨p, ps⟩
      · exact hne hp
      · rw [hp] at h hlast
        cases ps with
        | nil =>
          simp at hlast
          exact hs (pySplitOn_eq_singleton_nil '\n' s (by rw [hp, hlast]))
        | cons p2 ps2 => simp at h
    · next => exact pySplitOn_ne_nil '\n' s h
  · intro h; rw [h]; rfl

theorem fastaLineOk_eq_spec (l : PyStr) :
    fastaLineOk l =
      (if startsWithGt (pyStrip l) then decide (1 < (pyStrip l).length)
       else (pyStrip l).all (fun c => isAminoAcid (pyUpperChar c))) := by
  unfold fastaLineOk
  cases h : pyStrip l <;> simp [h]

/-- Claim C1 counterexample: on the content `">h\n ACDE"` the validator
returns `true` although the second line, read literally as the claim
words it, contains a space, which is not one of the 20 amino-acid
letters; the claim's biconditional therefore requires `false` here. -/
theorem c1_validator_counterexample :
    validateFastaContent (some (">h\n ACDE".toList)) = true ∧
    c1SpecValid ">h\n ACDE".toList = false := by
  constructor <;> decide

/-- Claim C1 (amended): the validator returns `true` exactly when the content
is non-empty, the stripped first line starts with `'>'`, every stripped
header line has at least one character after the marker, and every
stripped non-header line consists solely of the 20 amino-acid letters
(case-insensitive); and it returns `false` (rather than raising) on an
I/O or decoding failure. -/
theorem c1_validator_amended :
    (∀ content : PyStr,
      validateFastaContent (some content) = true ↔ c1AmendedValid content = true) ∧
    validateFastaContent none = false := by
  refine ⟨?_, rfl⟩
  intro content
  unfold validateFastaContent c1AmendedValid validateFastaLines
  cases hl : pyReadLines content with
  | nil =>
    have hc : content = [] := (pyReadLines_eq_nil_iff content).mp hl
    subst hc
    simp [hl]
  | cons l0 rest =>
    have hcne : content ≠ [] := by
      intro h
      rw [h] at hl
      rw [(pyReadLines_eq_nil_iff ([] : PyStr)).mpr rfl] at hl
      exact List.noConfusion hl
    have hfe : fastaLineOk = fun l =>
        (if startsWithGt (pyStrip l) then decide (1 < (pyStrip l).length)
         else (pyStrip l).all (fun c => isAminoAcid (pyUpperChar c))) :=
      funext fastaLineOk_eq_spec
    rw [hfe]
    simp [hl, hcne]

/-- Witness for the amended C1 claim at a concrete valid record. -/
theorem c1_validator_amended_witness :
    validateFastaContent (some (">seq\nACDE".toList)) = true :=
  (c1_validator_amended.1 (">seq\nACDE".toList)).mpr (by decide)

/-- Outcome of a `subprocess.run(...)` call: normal completion with a
return code and captured stderr, a `subprocess.TimeoutExpired`, or
another exception raised during the call (`OSError` etc., whose
message is carried). -/
inductive SubprocOutcome
  | exit (returncode : Int) (stderr : PyStr)
  | timeout
  | err (msg : PyStr)
deriving DecidableEq, Repr

/-- Record `models.PredictionResult`: a label and a probability. -/
structure PredictionResult where
  label : PyStr
  probability : PyFloat
deriving DecidableEq, Repr

/-- The value in the result slot of a spider service return: the
failure paths of the Python code return the empty list `[]` where the
success path returns a structured result. -/
inductive SpiderResultVal
  | emptyList
  | pred (r : PredictionResult)
deriving DecidableEq, Repr

/-- The parser `SpiderService._parse_spider_results` on the output file's content:
strip, split on newlines; on more than one line the code raises
`ValueError("SPIDER output contains multiple lines")`, but the
function's own blanket `except` catches that raise (and any
`IndexError`/`ValueError` from the field accesses) and returns the
empty list, modelled as `none`; otherwise the 2nd and 3rd
comma-separated fields become label and probability. -/
def parseSpiderResults (content : PyStr) : Option PredictionResult :=
  let output := pySplitOn '\n' (pyStrip content)
  if 1 < output.length then none
  else
    match output with
    | [] => none
    | line :: _ =>
      match pySplitOn ',' line with
      | _ :: label :: prob :: _ =>
        match pyFloat? prob with
        | some p => some ⟨label, p⟩
        | none => none
      | _ => none

/-- The parts of the outside world `run_spider_prediction` interacts
with: the subprocess outcome and the state of the fixed output file
`output/predict_result.csv` after the run. -/
structure SpiderEnv where
  subproc : SubprocOutcome
  outputExists : Bool
  outputContent : PyStr
deriving DecidableEq, Repr

/-- Observable behaviour of one `run_spider_prediction` call: the
returned triple, the process working directory when the call returns
(`cwd0` was the working directory before the call), and how many times
the copied input `input/seq.fasta` was created and removed. -/
structure SpiderRunTrace where
  success : Bool
  message : PyStr
  result : SpiderResultVal
  finalCwd : PyStr
  inputCreated : Nat
  inputRemoved : Nat
deriving DecidableEq, Repr

/-- Method `SpiderService.run_spider_prediction`: copy the input to the fixed
path (one creation), `os.chdir` to the tool home, run the subprocess
with a 300s timeout, `os.chdir` back, then check the return code, the
output file, parse, and clean up.  The chdir back sits between the
subprocess call and the return-code check, so it is reached only when
`subprocess.run` returns; the `except subprocess.TimeoutExpired` and
blanket `except` clauses return directly without restoring the working
directory.  The input file is unlinked only on the success path.  (The
traceback fragment appended to the generic error message is not
modelled.) -/
def runSpiderPrediction (env : SpiderEnv) (cwd0 spiderHome : PyStr) : SpiderRunTrace :=
  match env.subproc with
  | .timeout =>
    { success := false, message := "SPIDER prediction timed out".toList,
      result := .emptyList, finalCwd := spiderHome, inputCreated := 1, inputRemoved := 0 }
  | .err m =>
    { success := false, message := "Error running SPIDER: ".toList ++ m,
      result := .emptyList, finalCwd := spiderHome, inputCreated := 1, inputRemoved := 0 }
  | .exit rc stderr =>
    if rc ≠ 0 then
      { success := false, message := "SPIDER execution failed: ".toList ++ stderr,
        result := .emptyList, finalCwd := cwd0, inputCreated := 1, inputRemoved := 0 }
    else if !env.outputExists then
      { success := false, message := "SPIDER did not generate output file".toList,
        result := .emptyList, finalCwd := cwd0, inputCreated := 1, inputRemoved := 0 }
    else
      { success := true, message := "Prediction completed successfully".toList,
        result := (match parseSpiderResults env.outputContent with
                   | some r => SpiderResultVal.pred r
                   | none => SpiderResultVal.emptyList),
        finalCwd := cwd0, inputCreated := 1, inputRemoved := 1 }


/-- Record `models.BLASTpResult`: the formatted table report. -/
structure BLASTpResult where
  report : PyStr
deriving DecidableEq, Repr

/-- The value in the result slot of a blast service return: failure
paths return the empty list `[]`, the success path one of the two
result shapes. -/
inductive BlastResultVal
  | emptyList
  | table (r : BLASTpResult)
  | json (r : BLASTpJSONResult)
deriving DecidableEq, Repr

/-- Decimal rendering of `line_idx + 1` in the f-string of
`_parse_blastp_table`. -/
def natDigits (n : Nat) : PyStr := Nat.toDigits 10 n

/-- Python `sep.join(pieces)`. -/
def pyJoin (sep : PyStr) : List PyStr → PyStr
  | [] => []
  | [x] => x
  | x :: xs => x ++ sep ++ pyJoin sep xs

/-- Constant `DEFAULT_HEADER` from `blast_service.py`. -/
def DEFAULT_HEADER : PyStr :=
  "rank\tid\tidentity%\talign_len\te-value\tbitscore\torganism".toList

/-- Method `BLASTpService._parse_blastp_table`: strip the output text, split
on newlines, prepend the fixed header and prefix each data row with
its 1-based rank, joined with newlines. -/
def parseBlastpTable (content : PyStr) : BLASTpResult :=
  let output_lines := pySplitOn '\n' (pyStrip content)
  ⟨pyJoin ['\n']
    (DEFAULT_HEADER ::
      output_lines.mapIdx (fun i line => natDigits (i + 1) ++ '\t' :: line))⟩

/-- The parts of the outside world `run_blastp_search` interacts with:
the `blastp` subprocess outcome and the state of the fixed output file
`blast_output/blastp_output.txt` after the run.  The optional
`update_blastdb.pl` refresh is a no-op unless auto-update is on; a
`RuntimeError` it raises is caught by the same handler as `OSError`
and is covered by the `err` outcome. -/
structure BlastEnv where
  subproc : SubprocOutcome
  outputExists : Bool
  outputContent : PyStr
deriving DecidableEq, Repr

/-- The returned triple of `run_blastp_search`. -/
structure BlastRun where
  success : Bool
  message : PyStr
  result : BlastResultVal
deriving DecidableEq, Repr

/-- Method `BLASTpService.run_blastp_search`: validate the FASTA file (its
content is `fasta`, `none` meaning unreadable), run the subprocess
with a 300s timeout, check return code and output file, then parse
into the requested shape. -/
def runBlastpSearch (fasta : Option PyStr) (env : BlastEnv)
    (output_format query_sequence : PyStr) : BlastRun :=
  if !validateFastaContent fasta then
    ⟨false, "Invalid or missing FASTA file".toList, .emptyList⟩
  else
    match env.subproc with
    | .timeout => ⟨false, "BLASTp search timed out".toList, .emptyList⟩
    | .err m => ⟨false, "Error running BLASTp: ".toList ++ m, .emptyList⟩
    | .exit rc stderr =>
      if rc ≠ 0 then
        ⟨false, "BLASTp execution failed: ".toList ++ stderr, .emptyList⟩
      else if !env.outputExists then
        ⟨false, "BLASTp did not generate output file".toList, .emptyList⟩
      else if pyLower output_format = "json".toList then
        ⟨true, "Search completed successfully".toList,
          .json (parseBlastpJson env.outputContent query_sequence)⟩
      else
        ⟨true, "Search completed successfully".toList,
          .table (parseBlastpTable env.outputContent)⟩

/-- The FASTA body built by both HTTP handlers:
`f">sequence\n{sequence.strip()}\n"`. -/
def fastaBody (sequence : PyStr) : PyStr :=
  ">sequence\n".toList ++ pyStrip sequence ++ "\n".toList

/-- The HTTP-level outcome of a handler: a 400, a 500, or a 200 with a
success message. -/
inductive HTTPOutcome
  | badRequest (detail : PyStr)
  | serverError (detail : PyStr)
  | ok (message : PyStr)
deriving DecidableEq, Repr

/-- Observable behaviour of one `search_protein_sequence` call:
the FASTA body written to the temporary file (if any), the HTTP
outcome, how often the temporary file was created and removed (the
`finally` clause unlinks it on every path out of the `with` block),
and whether the service was invoked. -/
structure BlastEndpointTrace where
  writtenContent : Option PyStr
  outcome : HTTPOutcome
  tempCreated : Nat
  tempRemoved : Nat
  serviceCalled : Bool
deriving DecidableEq, Repr

/-- Handler `app.search_protein_sequence`: reject a falsy (empty) sequence with
400, write the FASTA body to a temporary file, validate it (400 on
failure), call `run_blastp_search` (500 on failure), and always unlink
the temporary file in `finally`. -/
def searchProteinSequence (sequence : PyStr) (env : BlastEnv)
    (output_format : PyStr) : BlastEndpointTrace :=
  if sequence.isEmpty then
    ⟨none, .badRequest "No sequence provided".toList, 0, 0, false⟩
  else
    let fasta := fastaBody sequence
    if !validateFastaContent (some fasta) then
      ⟨some fasta, .badRequest "Invalid sequence format".toList, 1, 1, false⟩
    else
      let r := runBlastpSearch (some fasta) env output_format sequence
      if !r.success then ⟨some fasta, .serverError r.message, 1, 1, true⟩
      else ⟨some fasta, .ok r.message, 1, 1, true⟩

/-- Observable behaviour of one `predict_druggable_proteins` call; the
`svc` field carries the trace of the inner `run_spider_prediction`
call when it happens. -/
structure SpiderEndpointTrace where
  writtenContent : Option PyStr
  outcome : HTTPOutcome
  tempCreated : Nat
  tempRemoved : Nat
  serviceCalled : Bool
  svc : Option SpiderRunTrace
deriving DecidableEq, Repr

/-- Handler `app.predict_druggable_proteins` (spider): the same shape as the
blast handler around `run_spider_prediction`. -/
def predictDruggableProteins (sequence : PyStr) (env : SpiderEnv)
    (cwd0 spiderHome : PyStr) : SpiderEndpointTrace :=
  if sequence.isEmpty then
    ⟨none, .badRequest "No sequence provided".toList, 0, 0, false, none⟩
  else
    let fasta := fastaBody sequence
    if !validateFastaContent (some fasta) then
      ⟨some fasta, .badRequest "Invalid sequence format".toList, 1, 1, false, none⟩
    else
      let t := runSpiderPrediction env cwd0 spiderHome
      if !t.success then ⟨some fasta, .serverError t.message, 1, 1, true, some t⟩
      else ⟨some fasta, .ok t.message, 1, 1, true, some t⟩

/-- Exceptions raised by `BLASTpService.__init__`. -/
inductive PyExn
  | valueError (msg : PyStr)
  | attributeError (msg : PyStr)
deriving DecidableEq, Repr

/-- The configuration state a successfully constructed `BLASTpService`
carries (logging and directory side effects omitted). -/
structure BLASTpServiceState where
  db_path : PyStr
  mm_env : PyStr
  auto_update : Bool
deriving DecidableEq, Repr

/-- Python `a or b` on an optional string and a fallback:
first operand if truthy (set and non-empty), else the fallback. -/
def pyOrStr (a : Option PyStr) (b : PyStr) : PyStr :=
  match a with
  | some s => if s.isEmpty then b else s
  | none => b

/-- Constructor `BLASTpService.__init__` as a function of its arguments, the
process environment, and whether the database path is writable:
raise `ValueError` when neither `db_path` nor `BLAST_DB_PATH` is
truthy, raise `ValueError` when the path is not writable, then read
`AUTO_UPDATE` with `os.environ.get` and call `.lower()` on it — an
`AttributeError` on `None` when the variable is unset — and set
`auto_update` to whether it lowercases to `"true"`. -/
def blastpServiceInit (dbPathArg mmEnvArg : Option PyStr)
    (env : PyStr → Option PyStr) (dbPathWritable : Bool) :
    Except PyExn BLASTpServiceState :=
  let db_path_env := env "BLAST_DB_PATH".toList
  if (pyOrStr dbPathArg (pyOrStr db_path_env [])).isEmpty then
    .error (.valueError "BLAST_DB_PATH environment variable must be set for database storage.".toList)
  else
    let db_path := pyOrStr dbPathArg (pyOrStr db_path_env [])
    if !dbPathWritable then
      .error (.valueError "db path is not writable".toList)
    else
      let mm_env := pyOrStr mmEnvArg (pyOrStr (env "BLAST_MM_ENV".toList) "blast".toList)
      match env "AUTO_UPDATE".toList with
      | none => .error (.attributeError "NoneType object has no attribute lower".toList)
      | some v => .ok ⟨db_path, mm_env, pyLower v = "true".toList⟩

/-- Claim C2, evaluated at the failing input: with the fixed output
CSV containing two lines, `_parse_spider_results` swallows its own
`ValueError` and returns the empty list, and `run_spider_prediction`
returns success with that empty result — not a reported parse
failure. -/
theorem c2_two_line_output_evaluation :
    parseSpiderResults "s1,Druggable,0.9\ns2,Non-druggable,0.2".toList = none ∧
    runSpiderPrediction
        ⟨.exit 0 [], true, "s1,Druggable,0.9\ns2,Non-druggable,0.2".toList⟩
        "/wd".toList "/app/spider_tool".toList =
      { success := true, message := "Prediction completed successfully".toList,
        result := .emptyList, finalCwd := "/wd".toList,
        inputCreated := 1, inputRemoved := 1 } := by
  constructor <;> decide

/-- Claim C3 counterexample: when the subprocess times out, the
`except` clause returns without restoring the working directory, so
the working directory after the call is the tool home, not the
original one. -/
theorem c3_cwd_counterexample :
    (runSpiderPrediction ⟨.timeout, false, []⟩ "/wd".toList
      "/app/spider_tool".toList).finalCwd ≠ "/wd".toList := by decide

/-- Claim C3 (amended): the working directory is restored whenever
`subprocess.run` returns (success, non-zero exit, or missing output),
but when the call raises — timeout or any other exception — the
function returns from the handler with the working directory still at
the tool home. -/
theorem c3_cwd_restored_amended :
    (∀ (rc : Int) (stderr : PyStr) (oe : Bool) (oc cwd0 home : PyStr),
      (runSpiderPrediction ⟨.exit rc stderr, oe, oc⟩ cwd0 home).finalCwd = cwd0) ∧
    (∀ (oe : Bool) (oc cwd0 home : PyStr),
      (runSpiderPrediction ⟨.timeout, oe, oc⟩ cwd0 home).finalCwd = home) ∧
    (∀ (m : PyStr) (oe : Bool) (oc cwd0 home : PyStr),
      (runSpiderPrediction ⟨.err m, oe, oc⟩ cwd0 home).finalCwd = home) := by
  refine ⟨?_, ?_, ?_⟩ <;>
    (intros; unfold runSpiderPrediction; dsimp only; try split_ifs) <;> rfl

/-- Claim C4 counterexample: on a non-zero exit of the prediction
subprocess, the copied input `input/seq.fasta` is created but the
cleanup (reached only on the success path) never removes it. -/
theorem c4_cleanup_counterexample :
    (runSpiderPrediction ⟨.exit 1 "boom".toList, false, []⟩ "/wd".toList
      "/h".toList).inputCreated = 1 ∧
    (runSpiderPrediction ⟨.exit 1 "boom".toList, false, []⟩ "/wd".toList
      "/h".toList).inputRemoved = 0 := by
  constructor <;> decide

/-- Claim C4 (amended): the HTTP layer's temporary input file is
created and removed in matched pairs on every path (the `finally`
clause); the prediction service's copied input is created exactly once
per invocation but removed exactly when the invocation succeeds — on
external-tool failure, timeout or missing output it is left behind. -/
theorem c4_cleanup_amended :
    (∀ (sequence : PyStr) (env : BlastEnv) (fmt : PyStr),
      (searchProteinSequence sequence env fmt).tempCreated =
        (searchProteinSequence sequence env fmt).tempRemoved) ∧
    (∀ (sequence : PyStr) (env : SpiderEnv) (cwd0 home : PyStr),
      (predictDruggableProteins sequence env cwd0 home).tempCreated =
        (predictDruggableProteins sequence env cwd0 home).tempRemoved) ∧
    (∀ (env : SpiderEnv) (cwd0 home : PyStr),
      (runSpiderPrediction env cwd0 home).inputCreated = 1 ∧
      (runSpiderPrediction env cwd0 home).inputRemoved =
        (if (runSpiderPrediction env cwd0 home).success then 1 else 0)) := by
  refine ⟨?_, ?_, ?_⟩
  · intro s env fmt
    unfold searchProteinSequence
    dsimp only
    split_ifs <;> rfl
  · intro s env cwd0 home
    unfold predictDruggableProteins
    dsimp only
    split_ifs <;> rfl
  · intro env cwd0 home
    obtain ⟨sp, oe, oc⟩ := env
    cases sp <;> unfold runSpiderPrediction <;> dsimp only <;>
      try split_ifs <;> simp_all

/-- Claim C7: on a subprocess timeout both services fail with a
dedicated timeout message that differs from every message produced on
a non-zero exit, and the non-zero-exit message carries the captured
stderr text. -/
theorem c7_timeout_message_distinct :
    (∀ (fasta : Option PyStr) (oe : Bool) (oc fmt qs : PyStr),
      validateFastaContent fasta = true →
      (runBlastpSearch fasta ⟨.timeout, oe, oc⟩ fmt qs).success = false ∧
      (runBlastpSearch fasta ⟨.timeout, oe, oc⟩ fmt qs).message =
        "BLASTp search timed out".toList ∧
      ∀ (rc : Int) (stderr : PyStr), rc ≠ 0 →
        (runBlastpSearch fasta ⟨.exit rc stderr, oe, oc⟩ fmt qs).message =
          "BLASTp execution failed: ".toList ++ stderr ∧
        (runBlastpSearch fasta ⟨.timeout, oe, oc⟩ fmt qs).message ≠
          (runBlastpSearch fasta ⟨.exit rc stderr, oe, oc⟩ fmt qs).message) ∧
    (∀ (oe : Bool) (oc cwd0 home : PyStr),
      (runSpiderPrediction ⟨.timeout, oe, oc⟩ cwd0 home).success = false ∧
      (runSpiderPrediction ⟨.timeout, oe, oc⟩ cwd0 home).message =
        "SPIDER prediction timed out".toList ∧
      ∀ (rc : Int) (stderr : PyStr), rc ≠ 0 →
        (runSpiderPrediction ⟨.exit rc stderr, oe, oc⟩ cwd0 home).message =
          "SPIDER execution failed: ".toList ++ stderr ∧
        (runSpiderPrediction ⟨.timeout, oe, oc⟩ cwd0 home).message ≠
          (runSpiderPrediction ⟨.exit rc stderr, oe, oc⟩ cwd0 home).message) := by
  constructor
  · intro fasta oe oc fmt qs hval
    have hv : (!validateFastaContent fasta) = false := by rw [hval]; rfl
    refine ⟨?_, ?_, ?_⟩
    · unfold runBlastpSearch; rw [hv]; rfl
    · unfold runBlastpSearch; rw [hv]; rfl
    · intro rc stderr hrc
      have hmsg : (runBlastpSearch fasta ⟨.exit rc stderr, oe, oc⟩ fmt qs).message =
          "BLASTp execution failed: ".toList ++ stderr := by
        unfold runBlastpSearch; rw [hv]
        dsimp only
        rw [if_pos hrc]
        rfl
      refine ⟨hmsg, ?_⟩
      have htm : (runBlastpSearch fasta ⟨.timeout, oe, oc⟩ fmt qs).message =
          "BLASTp search timed out".toList := by
        unfold runBlastpSearch; rw [hv]; rfl
      rw [hmsg, htm]
      intro h
      have h8 := congrArg (List.take 8) h
      rw [List.take_append_of_le_length (by decide)] at h8
      exact absurd h8 (by decide)
  · intro oe oc cwd0 home
    refine ⟨rfl, rfl, ?_⟩
    intro rc stderr hrc
    have hmsg : (runSpiderPrediction ⟨.exit rc stderr, oe, oc⟩ cwd0 home).message =
        "SPIDER execution failed: ".toList ++ stderr := by
      unfold runSpiderPrediction; dsimp only
      rw [if_pos hrc]
    refine ⟨hmsg, ?_⟩
    have htm : (runSpiderPrediction ⟨.timeout, oe, oc⟩ cwd0 home).message =
        "SPIDER prediction timed out".toList := rfl
    rw [hmsg, htm]
    intro h
    have h8 := congrArg (List.take 8) h
    rw [List.take_append_of_le_length (by decide)] at h8
    exact absurd h8 (by decide)

/-- Witness for C7 at a concrete valid FASTA input, exit code 2 and
stderr `"oops"`. -/
theorem c7_timeout_message_distinct_witness :
    (runBlastpSearch (some ">s\nACDE".toList) ⟨.timeout, false, []⟩
      "table".toList []).message = "BLASTp search timed out".toList ∧
    (runBlastpSearch (some ">s\nACDE".toList) ⟨.exit 2 "oops".toList, false, []⟩
      "table".toList []).message = "BLASTp execution failed: oops".toList ∧
    (runSpiderPrediction ⟨.exit 2 "oops".toList, false, []⟩ "/wd".toList
      "/h".toList).message = "SPIDER execution failed: oops".toList := by
  have hb := c7_timeout_message_distinct.1 (some ">s\nACDE".toList) false []
    "table".toList [] (by decide)
  have hs := c7_timeout_message_distinct.2 false [] "/wd".toList "/h".toList
  refine ⟨hb.2.1, ?_, ?_⟩
  · exact (hb.2.2 2 "oops".toList (by decide)).1.trans (by decide)
  · exact (hs.2.2 2 "oops".toList (by decide)).1.trans (by decide)

/-- Claim C8: for every non-empty submitted sequence, both HTTP
handlers write exactly `">sequence\n"` followed by the stripped
sequence and `"\n"` to the temporary input file (an empty sequence is
rejected with 400 before any file is written). -/
theorem c8_fasta_body_exact (S : PyStr) (hS : S ≠ []) :
    (∀ (env : BlastEnv) (fmt : PyStr),
      (searchProteinSequence S env fmt).writtenContent =
        some (">sequence\n".toList ++ pyStrip S ++ "\n".toList)) ∧
    (∀ (env : SpiderEnv) (cwd0 home : PyStr),
      (predictDruggableProteins S env cwd0 home).writtenContent =
        some (">sequence\n".toList ++ pyStrip S ++ "\n".toList)) := by
  have hne : S.isEmpty = false := by
    cases S
    · exact absurd rfl hS
    · rfl
  constructor
  · intro env fmt
    unfold searchProteinSequence
    simp only [hne, Bool.false_eq_true, if_false]
    split_ifs <;> rfl
  · intro env cwd0 home
    unfold predictDruggableProteins
    simp only [hne, Bool.false_eq_true, if_false]
    split_ifs <;> rfl

/-- Witness for C8 at the concrete sequence `"  MKTV "`. -/
theorem c8_fasta_body_exact_witness :
    (searchProteinSequence "  MKTV ".toList ⟨.exit 0 [], true, []⟩
      "table".toList).writtenContent = some ">sequence\nMKTV\n".toList := by
  have h := (c8_fasta_body_exact "  MKTV ".toList (by decide)).1
    ⟨.exit 0 [], true, []⟩ "table".toList
  exact h.trans (by decide)

/-- Claim C9: constructing `BLASTpService` in an environment without
`AUTO_UPDATE` raises (`None.lower()` → `AttributeError`) rather than
defaulting auto-update off; the service is constructed only when
`AUTO_UPDATE` is set, and `auto_update` holds exactly when its value
lowercases to `"true"`. -/
theorem c9_auto_update_required (dbArg mmArg : Option PyStr)
    (env : PyStr → Option PyStr) (w : Bool) :
    (env "AUTO_UPDATE".toList = none →
      (∀ s, blastpServiceInit dbArg mmArg env w ≠ .ok s) ∧
      ((pyOrStr dbArg (pyOrStr (env "BLAST_DB_PATH".toList) [])).isEmpty = false →
        w = true →
        blastpServiceInit dbArg mmArg env w =
          .error (.attributeError "NoneType object has no attribute lower".toList))) ∧
    (∀ s, blastpServiceInit dbArg mmArg env w = .ok s →
      ∃ v, env "AUTO_UPDATE".toList = some v ∧
        (s.auto_update = true ↔ pyLower v = "true".toList)) := by
  constructor
  · intro hau
    constructor
    · intro s h
      dsimp only [blastpServiceInit] at h
      split_ifs at h
      all_goals first
        | exact Except.noConfusion h
        | (rw [hau] at h; exact Except.noConfusion h)
    · intro hdb hw
      dsimp only [blastpServiceInit]
      rw [hdb, hw, hau]
      rfl
  · intro s h
    dsimp only [blastpServiceInit] at h
    split_ifs at h
    cases hau : env "AUTO_UPDATE".toList with
    | none => rw [hau] at h; exact Except.noConfusion h
    | some v =>
      rw [hau] at h
      cases h
      exact ⟨v, rfl, by simp⟩

/-- Witness for C9: with a writable db path and no `AUTO_UPDATE`
variable, construction fails with the `AttributeError`. -/
theorem c9_auto_update_required_witness :
    blastpServiceInit (some "/db".toList) none (fun _ => none) true =
      .error (.attributeError "NoneType object has no attribute lower".toList) := by
  have h := (c9_auto_update_required (some "/db".toList) none (fun _ => none) true).1 rfl
  exact h.2 (by decide) rfl

/-- Claim C10: the validator accepts a valid header with empty
sequence body, so a whitespace-only submitted sequence — truthy, hence
past the emptiness check — is not rejected with 400 and is forwarded
to the external tool. -/
theorem c10_whitespace_sequence_forwarded (S : PyStr) (hne : S ≠ [])
    (hws : ∀ c ∈ S, isPyWs c = true) :
    validateFastaContent (some (fastaBody S)) = true ∧
    ∀ (env : BlastEnv) (fmt : PyStr),
      (searchProteinSequence S env fmt).serviceCalled = true ∧
      ∀ d, (searchProteinSequence S env fmt).outcome ≠ .badRequest d := by
  have hstrip : pyStrip S = [] := by
    unfold pyStrip
    have h1 : S.dropWhile isPyWs = [] := by
      rw [List.dropWhile_eq_nil_iff]
      intro x hx
      exact hws x hx
    rw [h1]
    rfl
  have hbody : fastaBody S = ">sequence\n\n".toList := by
    unfold fastaBody
    rw [hstrip]
    decide
  have hval : validateFastaContent (some (fastaBody S)) = true := by
    rw [hbody]
    decide
  refine ⟨hval, ?_⟩
  intro env fmt
  have hne' : S.isEmpty = false := by
    cases S
    · exact absurd rfl hne
    · rfl
  unfold searchProteinSequence
  simp only [hne', Bool.false_eq_true, if_false, hval, Bool.not_true]
  split_ifs <;> exact ⟨rfl, fun d h => HTTPOutcome.noConfusion h⟩

/-- Witness for C10 at the single-space sequence. -/
theorem c10_whitespace_sequence_forwarded_witness :
    validateFastaContent (some (fastaBody " ".toList)) = true ∧
    (searchProteinSequence " ".toList ⟨.exit 0 [], true, []⟩
      "table".toList).serviceCalled = true := by
  have h := c10_whitespace_sequence_forwarded " ".toList (by decide) (by decide)
  exact ⟨h.1, (h.2 ⟨.exit 0 [], true, []⟩ "table".toList).1⟩
